import Mathlib

/-
Verification of the portfolio construction and projection pipeline of
proyecto.py (a Streamlit dashboard).  The Python code is shallowly
embedded over exact rationals:

* float arithmetic is modelled by ℚ; a float computation that Python
  or numpy turns into a non-finite value (inf or NaN, e.g. a division
  by zero) is modelled by the value `none` of an `Option ℚ` result,
  which then flows to the display layer exactly as the non-finite
  float does in the source;
* the float power operator `**` used by the CAGR formula and the
  annualized-volatility formula (std times sqrt 252) have no exact
  rational counterpart, so they enter as explicit function parameters
  (`pw`, `vol`); no claim depends on their numeric content;
* pandas Series indexed by date are association lists
  `List (Date × Option ℚ)` (a `none` entry is a NaN cell, e.g. the
  first row of pct_change); yfinance data frames are reduced to the
  columns the code reads.
-/

namespace Proyecto

/-- Ticker symbols, abstracted as naturals. -/
abbrev Ticker := ℕ

/-- Sector labels, abstracted as naturals. -/
abbrev Sector := ℕ

/-- Dates of a pandas DatetimeIndex, abstracted as naturals (ordered). -/
abbrev Date := ℕ

/-! ## Trend projector (3-Year Prediction page, lines 823-839)

The page fits `sklearn.linear_model.LinearRegression` on
`days = 0, 1, ..., n-1` against the portfolio value series, then
evaluates the fitted line on `range(n, n + 3*365)`.  For one feature,
sklearn computes the ordinary least squares line; when the design is
degenerate (fewer than 2 samples) the underlying lstsq returns the
minimum-norm solution: slope 0 and intercept equal to the mean. -/

/-- Least squares fit of a value series against its zero-based index:
returns (slope, intercept).  The closed form matches sklearn exactly
in exact arithmetic, including the degenerate minimum-norm case. -/
def lsFit (ys : List ℚ) : ℚ × ℚ :=
  let n : ℚ := ys.length
  let xs : List ℚ := (List.range ys.length).map (fun i : ℕ => (i : ℚ))
  let sx := xs.sum
  let sy := ys.sum
  let sxx := (xs.map (fun x => x * x)).sum
  let sxy := (List.zipWith (fun x y => x * y) xs ys).sum
  let d := n * sxx - sx * sx
  if d = 0 then (0, if n = 0 then 0 else sy / n)
  else
    let m := (n * sxy - sx * sy) / d
    (m, (sy - m * sx) / n)

/-- Value of the fitted line at day index x (model.predict at x). -/
def linePred (ys : List ℚ) (x : ℚ) : ℚ :=
  (lsFit ys).2 + (lsFit ys).1 * x

/-- Line 829-830: predictions on future day indices
`range(n, n + horizon)`. -/
def predictFuture (ys : List ℚ) (horizon : ℕ) : List ℚ :=
  (List.range horizon).map (fun i : ℕ => linePred ys ((ys.length : ℚ) + (i : ℚ)))

/-- Lines 833-835: expected return in percent.  `initial` is the last
historical value, `final` the last predicted value; the unguarded
float division by `initial` is `none` when `initial = 0` (the
non-finite float outcome).  When the series or the prediction list is
empty the indexing `values[-1]` itself faults, also modelled `none`. -/
def expectedReturnOf (ys : List ℚ) (horizon : ℕ) : Option ℚ :=
  match ys.getLast?, (predictFuture ys horizon).getLast? with
  | some i, some f => if i = 0 then none else some ((f - i) / i * 100)
  | _, _ => none

/-- Line 839: coefficient of determination of the fit on the
historical points, `1 - ssRes / ssTot`.  When the total sum of
squares is zero (a constant series) the sklearn score special-cases
the result to a finite value instead of dividing: 1.0 when the
residual sum is also zero, else 0.0; the result is always finite, so
the `Option` is always `some` (it is kept only so every modelled
float computation has the same shape). -/
def rsquaredOf (ys : List ℚ) : Option ℚ :=
  let m := (lsFit ys).1
  let b := (lsFit ys).2
  let preds := (List.range ys.length).map (fun i : ℕ => b + m * (i : ℚ))
  let ssRes := (List.zipWith (fun y p => (y - p) * (y - p)) ys preds).sum
  let ybar := ys.sum / (ys.length : ℚ)
  let ssTot := (ys.map (fun y => (y - ybar) * (y - ybar))).sum
  if ssTot = 0 then (if ssRes = 0 then some 1 else some 0)
  else some (1 - ssRes / ssTot)

/-! ## Data loading (lines 21-35 and 677-687)

The script defines `load_data` twice.  The first definition (line 22)
retries `yf.download` up to `max_retries` times and returns `None`
after exhausting them; the second definition (line 679) makes a single
attempt and returns `None` on any failure.  Because the script runs
top to bottom, the S&P 500, Sector Analysis and Stock Analysis pages
call the first definition, while the Portfolio Comparison and 3-Year
Prediction pages (textually after line 677) call the second.  A fetch
attempt is abstracted as `attempts : ℕ → Option α`: `none` models an
exception or an empty frame on that attempt. -/

/-- The retry loop of the first `load_data`: `go a k` runs attempts
`a, a+1, ...` while fewer than `k` attempts remain. -/
def load_data_loop {α : Type} (attempts : ℕ → Option α) : ℕ → ℕ → Option α
  | _, 0 => none
  | a, k + 1 =>
    match attempts a with
    | some d => some d
    | none => load_data_loop attempts (a + 1) k

/-- First `load_data` (line 22): up to `maxRetries` attempts, data of
the first successful attempt, `None` after exhausting the budget. -/
def load_data {α : Type} (attempts : ℕ → Option α) (maxRetries : ℕ) : Option α :=
  load_data_loop attempts 0 maxRetries

/-- Second `load_data` (line 679): a single attempt, `None` on its
failure.  This definition shadows the first for every call site after
line 677. -/
def load_data_no_retry {α : Type} (attempts : ℕ → Option α) : Option α :=
  attempts 0

/-! ## Portfolio aggregator (Portfolio Comparison page, lines 727-739)

`pd.concat(portfolio_returns, axis=1)` aligns the constituent return
series on the sorted union of their date indexes; `.mean(axis=1)`
takes the row mean ignoring missing cells (a date absent from a
series, or a NaN cell such as the first row of `pct_change`).  A
series is a `List (Date × Option ℚ)`; `none` is a NaN cell. -/

/-- Sorted union of the date indexes of the constituent series
(the outer join performed by `pd.concat(axis=1)`). -/
def unionDates (cs : List (List (Date × Option ℚ))) : List Date :=
  List.insertionSort (fun a b => a ≤ b) ((cs.map (fun s => s.map Prod.fst)).flatten).dedup

/-- Cell of a series at date `d`: `none` when the date is not in the
index, `some c` when it is, where the cell `c` itself may be missing
(NaN). -/
def lookupDate (d : Date) : List (Date × Option ℚ) → Option (Option ℚ)
  | [] => none
  | (k, v) :: t => if d = k then some v else lookupDate d t

/-- Values present at date `d`: one entry per series whose index holds
`d` with a non-missing cell. -/
def presentAt (cs : List (List (Date × Option ℚ))) (d : Date) : List ℚ :=
  cs.filterMap (fun s =>
    match lookupDate d s with
    | some (some v) => some v
    | _ => none)

/-- Row mean ignoring missing cells; `none` (NaN) when every cell of
the row is missing. -/
def meanOpt : List ℚ → Option ℚ
  | [] => none
  | a :: t => some ((a :: t).sum / ((a :: t).length : ℚ))

/-- Line 738: `pd.concat(portfolio_returns, axis=1).mean(axis=1)`. -/
def combined_returns (cs : List (List (Date × Option ℚ))) : List (Date × Option ℚ) :=
  (unionDates cs).map (fun d => (d, meanOpt (presentAt cs d)))

/-! ## Statistics module (S&P 500 page lines 84-93, Stock Analysis
page lines 647-656; both use the same formulas)

A row of the OHLC frame.  The field `opn` stands for the Open column
(`open` is reserved in Lean). -/

structure Row where
  opn : ℚ
  high : ℚ
  low : ℚ
  close : ℚ
deriving DecidableEq

/-- Line 86: `((closing_value - opening_value) / opening_value) * 100`.
The division is unguarded in the source; a zero opening value makes
the float quotient non-finite, modelled `none`. -/
def total_return (o c : ℚ) : Option ℚ :=
  if o = 0 then none else some ((c - o) / o * 100)

/-- Line 93: `((closing_value / opening_value) ** (1 / num_years) - 1)
* 100`, with the float power operator abstracted as `pw` on the paths
where it is finite.  Unguarded in the source; the computation is
non-finite (modelled `none`) when the opening value or the year span
is zero (division by zero), when the ratio is negative and the
exponent `1 / y` is not an integer (the float power of a negative
base with a fractional exponent is NaN), and when the ratio is zero
and the exponent negative (zero to a negative power is inf). -/
def cagr (pw : ℚ → ℚ → ℚ) (o c y : ℚ) : Option ℚ :=
  if o = 0 ∨ y = 0 then none
  else if c / o < 0 ∧ (1 / y).den ≠ 1 then none
  else if c / o = 0 ∧ 1 / y < 0 then none
  else some ((pw (c / o) (1 / y) - 1) * 100)

/-- Lines 84-109: the summary table the page builds and displays,
one `(statistic, value)` row per entry; a `none` value is a
non-finite float reaching the display layer.  `pw` abstracts the
float power, `vol` the annualized-volatility computation
(std times sqrt 252). -/
def sp500_page_stats (pw : ℚ → ℚ → ℚ) (vol : List ℚ → ℚ) (rows : List Row) (y : ℚ) :
    List (String × Option ℚ) :=
  match rows.head?, rows.getLast? with
  | some f, some l =>
    [("Opening Value", some f.opn),
     ("Closing Value", some l.close),
     ("Total Return (%)", total_return f.opn l.close),
     ("CAGR (%)", cagr pw f.opn l.close y),
     ("Minimum Value", (rows.map Row.low).min?),
     ("Maximum Value", (rows.map Row.high).max?),
     ("Volatility", some (vol (rows.map Row.close)))]
  | _, _ => []

/-! ## Volatility ranking and portfolio selection

Lines 694-718 (inline in the Portfolio Comparison page) and lines
770-794 (`get_portfolios`, called by the 3-Year Prediction page) hold
two copies of the same computation.  `fetch t` is the memoized
`load_data` result for ticker `t` (`none` when it failed), given as a
close series `List (Date × ℚ)`; `vol` abstracts
`data.pct_change().std() * sqrt(252)`.  Python dict/set order: the
universe is its key list in insertion order (duplicate keys already
collapsed, last value winning, as in the source table), and
`list(set(...))` of the sectors is modelled as `dedup` of the mapped
universe; no claim depends on the sector iteration order. -/

/-- Lines 695-700 and 771-776: volatility of every ticker whose data
loaded, in universe order. -/
def volatilities_of (univ : List Ticker) (vol : List ℚ → ℚ)
    (fetch : Ticker → Option (List (Date × ℚ))) : List (Ticker × ℚ) :=
  univ.filterMap (fun t => (fetch t).map (fun data => (t, vol (data.map Prod.snd))))

/-- Lines 706 and 778: `sorted(volatilities.items(), key=..., reverse=True)`,
a stable sort descending by volatility. -/
def sorted_volatilities (univ : List Ticker) (vol : List ℚ → ℚ)
    (fetch : Ticker → Option (List (Date × ℚ))) : List (Ticker × ℚ) :=
  List.insertionSort (fun a b => b.2 ≤ a.2) (volatilities_of univ vol fetch)

/-- Lines 709 and 780: `[ticker for ticker, vol in sorted_volatilities[:5]]`. -/
def aggressive_portfolio (sv : List (Ticker × ℚ)) : List Ticker :=
  (sv.take 5).map Prod.fst

/-- Lines 711 and 781: `[ticker for ticker, vol in sorted_volatilities[-100:]]`. -/
def low_risk_portfolio (sv : List (Ticker × ℚ)) : List Ticker :=
  (sv.drop (sv.length - 100)).map Prod.fst

/-- Lines 716 and 786: the ranking entries of one sector, preserving
overall rank order. -/
def sector_stocks (sectorOf : Ticker → Sector) (sv : List (Ticker × ℚ)) (s : Sector) :
    List (Ticker × ℚ) :=
  sv.filter (fun p => sectorOf p.1 == s)

/-- Lines 717-718 and 787-788: what one sector appends to the
diversified portfolio: tickers of `sector_stocks[:2]` then of
`sector_stocks[-2:]`, with no deduplication. -/
def sector_contribution (sectorOf : Ticker → Sector) (sv : List (Ticker × ℚ)) (s : Sector) :
    List Ticker :=
  ((sector_stocks sectorOf sv s).take 2).map Prod.fst ++
    ((sector_stocks sectorOf sv s).drop ((sector_stocks sectorOf sv s).length - 2)).map Prod.fst

/-- Lines 713-718 and 783-788: the diversified portfolio accumulated
over the sector list. -/
def diversified_portfolio (sectors : List Sector) (sectorOf : Ticker → Sector)
    (sv : List (Ticker × ℚ)) : List Ticker :=
  (sectors.map (sector_contribution sectorOf sv)).flatten

/-- The mapping returned at lines 721-725 and 790-794: portfolio name
to ticker list. -/
structure Portfolios where
  aggressive : List Ticker
  lowRisk : List Ticker
  diversified : List Ticker
deriving DecidableEq

/-- Lines 694-725: the portfolio selection logic written inline in the
Portfolio Comparison page, transcribed step by step. -/
def portfolio_comparison_selection (univ : List Ticker) (sectorOf : Ticker → Sector)
    (vol : List ℚ → ℚ) (fetch : Ticker → Option (List (Date × ℚ))) : Portfolios :=
  let volList := univ.filterMap
    (fun t => (fetch t).map (fun data => (t, vol (data.map Prod.snd))))
  let sv := List.insertionSort (fun a b => b.2 ≤ a.2) volList
  let aggressive := (sv.take 5).map Prod.fst
  let lowRisk := (sv.drop (sv.length - 100)).map Prod.fst
  let sectors := (univ.map sectorOf).dedup
  let diversified := (sectors.map (fun s =>
    let ss := sv.filter (fun p => sectorOf p.1 == s)
    (ss.take 2).map Prod.fst ++ (ss.drop (ss.length - 2)).map Prod.fst)).flatten
  { aggressive := aggressive, lowRisk := lowRisk, diversified := diversified }

/-- Lines 770-794: `get_portfolios`, the duplicate of the same logic
used by the 3-Year Prediction page, transcribed step by step. -/
def get_portfolios (univ : List Ticker) (sectorOf : Ticker → Sector)
    (vol : List ℚ → ℚ) (fetch : Ticker → Option (List (Date × ℚ))) : Portfolios :=
  let volList := univ.filterMap
    (fun t => (fetch t).map (fun data => (t, vol (data.map Prod.snd))))
  let sv := List.insertionSort (fun a b => b.2 ≤ a.2) volList
  let aggressive := (sv.take 5).map Prod.fst
  let lowRisk := (sv.drop (sv.length - 100)).map Prod.fst
  let sectors := (univ.map sectorOf).dedup
  let diversified := (sectors.map (fun s =>
    let ss := sv.filter (fun p => sectorOf p.1 == s)
    (ss.take 2).map Prod.fst ++ (ss.drop (ss.length - 2)).map Prod.fst)).flatten
  { aggressive := aggressive, lowRisk := lowRisk, diversified := diversified }

/-! ## Page-level outcomes -/

/-- Outcome of the Portfolio Comparison page: `st.error` with nothing
else rendered when no ticker loaded (lines 702-703), otherwise the
three portfolios of lines 709-725. -/
inductive PCPageResult
  | error : PCPageResult
  | portfolios : Portfolios → PCPageResult
deriving DecidableEq

/-- Lines 694-725: the Portfolio Comparison page up to portfolio
construction. -/
def portfolio_comparison_page (univ : List Ticker) (sectorOf : Ticker → Sector)
    (vol : List ℚ → ℚ) (fetch : Ticker → Option (List (Date × ℚ))) : PCPageResult :=
  let volList := univ.filterMap
    (fun t => (fetch t).map (fun data => (t, vol (data.map Prod.snd))))
  if volList = [] then PCPageResult.error
  else PCPageResult.portfolios (portfolio_comparison_selection univ sectorOf vol fetch)

/-- Line 821: the equal-weight mean of the constituent close series,
`pd.concat(combined_values, axis=1).mean(axis=1)`, as a value list in
date order.  Close cells are never NaN, so every union date has at
least one present value and the row mean is defined; `filterMap`
extracts it. -/
def combined_close_values (series : List (List (Date × ℚ))) : List ℚ :=
  (combined_returns (series.map (fun s => s.map (fun p => (p.1, some p.2))))).filterMap
    (fun p => p.2)

/-- Outcome of the 3-Year Prediction page.  `loadError`: the S&P 500
series failed to load, the page shows the load error and stops
(lines 804-805).  `page errors entries`: `errors` lists the universe
tickers whose fetch failed, each of which made the second `load_data`
call `st.error` at line 686 when `get_portfolios` first fetched it
(later refetches of the same ticker hit the `st.cache_data` memo and
do not rerun the body); `entries` holds one
`(portfolio name, expected return)` pair per portfolio whose
constituent list yielded data — a portfolio with no loaded
constituent is skipped by the guard at line 820.  A `none` expected
return is a non-finite float reaching the display. -/
inductive PredictionPageResult
  | loadError : PredictionPageResult
  | page : List Ticker → List (String × Option ℚ) → PredictionPageResult
deriving DecidableEq

/-- Lines 797-842: the 3-Year Prediction page.  `sp500` is the result
of loading the index series; the horizon is the hard-coded
`3*365` future day indices. -/
def prediction_page (univ : List Ticker) (sectorOf : Ticker → Sector)
    (vol : List ℚ → ℚ) (fetch : Ticker → Option (List (Date × ℚ)))
    (sp500 : Option (List (Date × ℚ))) : PredictionPageResult :=
  match sp500 with
  | none => PredictionPageResult.loadError
  | some _ =>
    let ps := get_portfolios univ sectorOf vol fetch
    PredictionPageResult.page
      (univ.filter (fun t => (fetch t).isNone))
      (([("Aggressive", ps.aggressive), ("Low-Risk", ps.lowRisk),
         ("Diversified", ps.diversified)]).filterMap
        (fun entry =>
          let cvs := entry.2.filterMap fetch
          match cvs with
          | [] => none
          | _ :: _ => some (entry.1, expectedReturnOf (combined_close_values cvs) (3 * 365))))

/-! ## Helper lemmas -/

theorem getLast?_range_map {α : Type} (f : ℕ → α) (h : ℕ) (hh : 1 ≤ h) :
    ((List.range h).map f).getLast? = some (f (h - 1)) := by
  obtain ⟨k, rfl⟩ : ∃ k, h = k + 1 := ⟨h - 1, by omega⟩
  rw [List.range_succ, List.map_append]
  simp

/-- The last historical value and the value of the fitted line at the
final future day index determine the expected return. -/
theorem expectedReturnOf_eq (ys : List ℚ) (h : ℕ) (L : ℚ) (hh : 1 ≤ h)
    (hL : ys.getLast? = some L) :
    expectedReturnOf ys h =
      if L = 0 then none
      else some ((linePred ys ((ys.length : ℚ) + (h : ℚ) - 1) - L) / L * 100) := by
  have hcast : ((ys.length : ℚ) + ((h - 1 : ℕ) : ℚ)) = ((ys.length : ℚ) + (h : ℚ) - 1) := by
    have : ((h - 1 : ℕ) : ℚ) = (h : ℚ) - 1 := by
      rw [Nat.cast_sub hh, Nat.cast_one]
    rw [this]; ring
  unfold expectedReturnOf predictFuture
  rw [hL, getLast?_range_map _ h hh, hcast]

theorem lsFit_single (v : ℚ) : lsFit [v] = (0, v) := by
  norm_num [lsFit, List.range_succ]

theorem predictFuture_single (v : ℚ) (h : ℕ) :
    predictFuture [v] h = List.replicate h v := by
  have hf : (fun i : ℕ => linePred [v] (([v].length : ℚ) + (i : ℚ))) = fun _ => v := by
    funext i
    simp [linePred, lsFit_single]
  rw [predictFuture, hf]
  simp [List.map_const]

theorem expectedReturnOf_single (v : ℚ) (h : ℕ) (hv : v ≠ 0) (hh : 1 ≤ h) :
    expectedReturnOf [v] h = some 0 := by
  rw [expectedReturnOf_eq [v] h v hh (by simp), if_neg hv]
  have : linePred [v] (([v].length : ℚ) + (h : ℚ) - 1) = v := by
    simp [linePred, lsFit_single]
  rw [this]
  simp

theorem lookup_map_pair {β : Type} (f : ℕ → β) (d : ℕ) :
    ∀ l : List ℕ, d ∈ l →
      List.lookup d (l.map (fun x => (x, f x))) = some (f d) := by
  intro l
  induction l with
  | nil => intro h; exact absurd h (List.not_mem_nil d)
  | cons a t ih =>
    intro h
    by_cases hda : d = a
    · subst hda
      simp [List.lookup]
    · have hdt : d ∈ t := by
        rcases List.mem_cons.1 h with h1 | h1
        · exact absurd h1 hda
        · exact h1
      have hbeq : (d == a) = false := by
        simp [hda]
      simp only [List.map_cons, List.lookup, hbeq]
      exact ih hdt

theorem volatilities_of_all_none (univ : List Ticker) (vol : List ℚ → ℚ)
    (fetch : Ticker → Option (List (Date × ℚ))) (hfail : ∀ t ∈ univ, fetch t = none) :
    volatilities_of univ vol fetch = [] := by
  rw [volatilities_of, List.filterMap_eq_nil_iff]
  intro t ht
  rw [hfail t ht]
  rfl

theorem get_portfolios_all_none (univ : List Ticker) (sectorOf : Ticker → Sector)
    (vol : List ℚ → ℚ) (fetch : Ticker → Option (List (Date × ℚ)))
    (hfail : ∀ t ∈ univ, fetch t = none) :
    get_portfolios univ sectorOf vol fetch = ⟨[], [], []⟩ := by
  have hnil : univ.filterMap
      (fun t => (fetch t).map (fun data => (t, vol (data.map Prod.snd)))) = [] :=
    volatilities_of_all_none univ vol fetch hfail
  rw [get_portfolios]
  simp only [hnil]
  simp [List.insertionSort]

/-! ## Claim theorems -/

/-- C2: for historical portfolio values [100, 102, 104, 106] at day
indices 0..3, the least squares fit extrapolated 2 days forward
yields exactly 108 and 110 with coefficient of determination 1; and
in general the expected return is (predicted value at horizon end -
last historical value) / last historical value * 100, where the
predicted value at horizon end is the fitted line at day index
n + horizon - 1. -/
theorem trend_projection_scenario :
    predictFuture [100, 102, 104, 106] 2 = [108, 110] ∧
    rsquaredOf [100, 102, 104, 106] = some 1 ∧
    (∀ (ys : List ℚ) (h : ℕ) (L : ℚ), 1 ≤ h → ys.getLast? = some L → L ≠ 0 →
      expectedReturnOf ys h =
        some ((linePred ys ((ys.length : ℚ) + (h : ℚ) - 1) - L) / L * 100)) := by
  refine ⟨?_, ?_, ?_⟩
  · norm_num [predictFuture, linePred, lsFit, List.range_succ]
  · norm_num [rsquaredOf, lsFit, List.range_succ]
  · intro ys h L hh hL hne
    rw [expectedReturnOf_eq ys h L hh hL, if_neg hne]

/-- Witness for C2: the expected-return formula evaluated on the
scenario series with horizon 2 gives (110 - 106) / 106 * 100. -/
theorem trend_projection_scenario_witness :
    expectedReturnOf [100, 102, 104, 106] 2 = some (200 / 53) := by
  have h := trend_projection_scenario.2.2 [100, 102, 104, 106] 2 106
    (by norm_num) (by simp) (by norm_num)
  rw [h]
  norm_num [linePred, lsFit, List.range_succ]

/-- C10: the expected return divides by the last portfolio
historical value with no guard: whenever that value is nonzero the
computation is defined, and a zero last value reaches the degenerate
division branch (modelled `none`), so a nonzero last value is an
unstated precondition. -/
theorem expected_return_guard :
    (∀ (ys : List ℚ) (h : ℕ) (L : ℚ), 1 ≤ h → ys.getLast? = some L → L ≠ 0 →
      ∃ q, expectedReturnOf ys h = some q) ∧
    expectedReturnOf [0] 1 = none := by
  constructor
  · intro ys h L hh hL hne
    exact ⟨_, by rw [expectedReturnOf_eq ys h L hh hL, if_neg hne]⟩
  · rw [expectedReturnOf_eq [0] 1 0 (by norm_num) (by simp), if_pos rfl]

/-- Witness for C10 on the two-point series [100, 102]. -/
theorem expected_return_guard_witness :
    ∃ q, expectedReturnOf [100, 102] 1 = some q :=
  expected_return_guard.1 [100, 102] 1 102 (by norm_num) (by simp) (by norm_num)

/-- C5 counterexample: the second `load_data` definition, in effect
for every page from Portfolio Comparison on, makes a single attempt:
when the fetch fails on the first two attempts and would succeed on
the third, it returns `None` instead of the data of the third attempt, so
the claim does not hold for the series-loading function used by each
page. -/
theorem no_retry_second_load_cex :
    load_data_no_retry (fun a => if 2 ≤ a then some (42 : ℕ) else none) = none ∧
    load_data_no_retry (fun a => if 2 ≤ a then some (42 : ℕ) else none) ≠ some 42 := by
  constructor
  · rfl
  · decide

/-- C5 amended: the first `load_data` (used by the S&P 500, Sector
Analysis and Stock Analysis pages) returns the data of the third attempt
when the first two attempts fail within a maximum of 3 retries, while
the second definition that shadows it for the Portfolio Comparison
and 3-Year Prediction pages makes a single attempt and returns `None`
on its failure. -/
theorem load_data_retry_split {α : Type} (attempts : ℕ → Option α) (d : α)
    (h0 : attempts 0 = none) (h1 : attempts 1 = none) (h2 : attempts 2 = some d) :
    load_data attempts 3 = some d ∧ load_data_no_retry attempts = none := by
  constructor
  · simp [load_data, load_data_loop, h0, h1, h2]
  · simp [load_data_no_retry, h0]

/-- Witness for C5: a fetch failing twice then succeeding with 42. -/
theorem load_data_retry_split_witness :
    load_data (fun a => if 2 ≤ a then some (42 : ℕ) else none) 3 = some 42 ∧
    load_data_no_retry (fun a => if 2 ≤ a then some (42 : ℕ) else none) = none :=
  load_data_retry_split (fun a => if 2 ≤ a then some 42 else none) 42
    (by decide) (by decide) (by decide)

/-- C3: on every date of the union of the constituent date indexes,
the aggregated portfolio return is the mean of the values present
that date (missing cells excluded from numerator and denominator);
in particular A = [0.01, missing, 0.02] and B = [0.02, 0.03, missing]
aggregate to [0.015, 0.03, 0.02]. -/
theorem aggregator_mean_over_present :
    (∀ (cs : List (List (Date × Option ℚ))) (d : Date), d ∈ unionDates cs →
      List.lookup d (combined_returns cs) = some (meanOpt (presentAt cs d))) ∧
    combined_returns
        [[(0, some (1/100)), (1, none), (2, some (1/50))],
         [(0, some (1/50)), (1, some (3/100)), (2, none)]] =
      [(0, some (3/200)), (1, some (3/100)), (2, some (1/50))] := by
  constructor
  · intro cs d hd
    have h := lookup_map_pair (fun d => meanOpt (presentAt cs d)) d (unionDates cs) hd
    simpa [combined_returns] using h
  · norm_num [combined_returns, unionDates, presentAt, meanOpt, lookupDate,
      List.insertionSort, List.orderedInsert, List.dedup, List.filterMap_cons]

/-- Witness for C3: date 1 of the scenario, where only B has a value
and the mean is over that single value. -/
theorem aggregator_mean_over_present_witness :
    List.lookup 1 (combined_returns
        [[(0, some (1/100)), (1, none), (2, some (1/50))],
         [(0, some (1/50)), (1, some (3/100)), (2, none)]]) =
      some (meanOpt (presentAt
        [[(0, some (1/100)), (1, none), (2, some (1/50))],
         [(0, some (1/50)), (1, some (3/100)), (2, none)]] 1)) :=
  aggregator_mean_over_present.1 _ 1 (by decide)

/-- C8: the Aggressive portfolio is exactly the first min(5, n)
ranking entries and the Low-Risk portfolio exactly the last
min(100, n) entries; when n < 100 the two can overlap and the overlap
is kept. -/
theorem aggressive_low_risk_slices :
    (∀ sv : List (Ticker × ℚ),
      aggressive_portfolio sv = (sv.map Prod.fst).take 5 ∧
      (aggressive_portfolio sv).length = min 5 sv.length ∧
      low_risk_portfolio sv = (sv.map Prod.fst).drop (sv.length - 100) ∧
      (low_risk_portfolio sv).length = min 100 sv.length) ∧
    (∃ (sv : List (Ticker × ℚ)) (t : Ticker),
      t ∈ aggressive_portfolio sv ∧ t ∈ low_risk_portfolio sv) := by
  constructor
  · intro sv
    refine ⟨?_, ?_, ?_, ?_⟩
    · rw [aggressive_portfolio, List.map_take]
    · simp [aggressive_portfolio]
    · rw [low_risk_portfolio, List.map_drop]
    · simp only [low_risk_portfolio, List.length_map, List.length_drop]
      omega
  · exact ⟨[(7, 1)], 7, by decide, by decide⟩

/-- C9: given identical fetch results for every ticker, the inline
selection logic of the Portfolio Comparison page and `get_portfolios`
used by the 3-Year Prediction page compute identical Aggressive,
Low-Risk and Diversified portfolios; moreover the Portfolio
Comparison page either errors out or renders exactly the portfolios
of `get_portfolios`. -/
theorem selection_logic_equivalence :
    (∀ (univ : List Ticker) (sectorOf : Ticker → Sector) (vol : List ℚ → ℚ)
       (fetch : Ticker → Option (List (Date × ℚ))),
      portfolio_comparison_selection univ sectorOf vol fetch =
        get_portfolios univ sectorOf vol fetch) ∧
    (∀ (univ : List Ticker) (sectorOf : Ticker → Sector) (vol : List ℚ → ℚ)
       (fetch : Ticker → Option (List (Date × ℚ))),
      portfolio_comparison_page univ sectorOf vol fetch = PCPageResult.error ∨
      portfolio_comparison_page univ sectorOf vol fetch =
        PCPageResult.portfolios (get_portfolios univ sectorOf vol fetch)) := by
  constructor
  · intro univ sectorOf vol fetch
    rfl
  · intro univ sectorOf vol fetch
    simp only [portfolio_comparison_page]
    by_cases hnil : (univ.filterMap
        (fun t => (fetch t).map (fun data => (t, vol (data.map Prod.snd))))) = []
    · left
      rw [if_pos hnil]
    · right
      rw [if_neg hnil]
      rfl

/-- C7: if every universe symbol fails to load, the volatility
ranking is empty and both dependent pages treat it as terminal: the
Portfolio Comparison page reports an error and produces no
portfolios, and the 3-Year Prediction page — when the S&P 500 series
itself loaded — reports a load error to the user for every universe
ticker (the `st.error` at line 686 of the second `load_data`, fired
when `get_portfolios` fetches each symbol) and renders no portfolio
entries and no charts; conversely, if some universe symbol loads, the
ranking is non-empty. -/
theorem empty_ranking_terminal :
    (∀ (univ : List Ticker) (sectorOf : Ticker → Sector) (vol : List ℚ → ℚ)
       (fetch : Ticker → Option (List (Date × ℚ))),
      (∀ t ∈ univ, fetch t = none) →
      sorted_volatilities univ vol fetch = [] ∧
      portfolio_comparison_page univ sectorOf vol fetch = PCPageResult.error) ∧
    (∀ (univ : List Ticker) (sectorOf : Ticker → Sector) (vol : List ℚ → ℚ)
       (fetch : Ticker → Option (List (Date × ℚ))) (sp : List (Date × ℚ)),
      (∀ t ∈ univ, fetch t = none) →
      prediction_page univ sectorOf vol fetch (some sp) =
        PredictionPageResult.page univ []) ∧
    (∀ (univ : List Ticker) (vol : List ℚ → ℚ)
       (fetch : Ticker → Option (List (Date × ℚ))) (t : Ticker),
      t ∈ univ → fetch t ≠ none → sorted_volatilities univ vol fetch ≠ []) := by
  refine ⟨?_, ?_, ?_⟩
  · intro univ sectorOf vol fetch hfail
    have hnil : univ.filterMap
        (fun t => (fetch t).map (fun data => (t, vol (data.map Prod.snd)))) = [] :=
      volatilities_of_all_none univ vol fetch hfail
    constructor
    · rw [sorted_volatilities, volatilities_of_all_none univ vol fetch hfail]
      rfl
    · simp [portfolio_comparison_page, hnil]
  · intro univ sectorOf vol fetch sp hfail
    have hps := get_portfolios_all_none univ sectorOf vol fetch hfail
    have hfilter : univ.filter (fun t => (fetch t).isNone) = univ :=
      List.filter_eq_self.2 (fun t ht => by rw [hfail t ht]; rfl)
    simp only [prediction_page, hps, hfilter]
    rfl
  · intro univ vol fetch t ht hne h
    obtain ⟨d, hd⟩ := Option.ne_none_iff_exists'.1 hne
    have hmem : (t, vol (d.map Prod.snd)) ∈ volatilities_of univ vol fetch :=
      List.mem_filterMap.2 ⟨t, ht, by rw [hd]; rfl⟩
    rw [sorted_volatilities] at h
    have hperm := List.perm_insertionSort
      (fun a b : Ticker × ℚ => b.2 ≤ a.2) (volatilities_of univ vol fetch)
    rw [h] at hperm
    rw [List.perm_nil.1 hperm.symm] at hmem
    exact List.not_mem_nil _ hmem

/-- Witness for C7: a one-ticker all-failing universe for the first
two parts (the prediction page reports the failed ticker and renders
nothing), and a loading ticker for the converse. -/
theorem empty_ranking_terminal_witness :
    (sorted_volatilities [3] (fun _ => 0) (fun _ => none) = [] ∧
      portfolio_comparison_page [3] (fun _ => 0) (fun _ => 0) (fun _ => none) =
        PCPageResult.error) ∧
    prediction_page [3] (fun _ => 0) (fun _ => 0) (fun _ => none) (some [(0, 1)]) =
      PredictionPageResult.page [3] [] ∧
    sorted_volatilities [3] (fun _ => 0) (fun _ => some [(0, 1)]) ≠ [] :=
  ⟨empty_ranking_terminal.1 [3] (fun _ => 0) (fun _ => 0) (fun _ => none)
      (fun _ _ => rfl),
   empty_ranking_terminal.2.1 [3] (fun _ => 0) (fun _ => 0) (fun _ => none) [(0, 1)]
      (fun _ _ => rfl),
   empty_ranking_terminal.2.2 [3] (fun _ => 0) (fun _ => some [(0, 1)]) 3
      (by decide) (by simp)⟩

/-- C4 counterexample: on a series whose opening value is 0 the
unguarded total-return and CAGR formulas produce a non-finite value
(modelled `none`) and the page places it straight into the displayed
summary table: nothing reports "undefined". -/
theorem zero_opening_propagates_cex :
    ("Total Return (%)", (none : Option ℚ)) ∈
        sp500_page_stats (fun a _ => a) (fun _ => 0) [⟨0, 1, 0, 100⟩] 3 ∧
    ("CAGR (%)", (none : Option ℚ)) ∈
        sp500_page_stats (fun a _ => a) (fun _ => 0) [⟨0, 1, 0, 100⟩] 3 := by
  constructor <;> simp [sp500_page_stats, total_return, cagr]

/-- C4 amended: the total-return and CAGR computations are unguarded.
A zero opening value sends a non-finite value (modelled `none`) into
the displayed summary rows instead of an "undefined" report.  A
negative opening value still yields an ordinary finite total return
(no "undefined" report either), and when it makes the close/open
ratio negative (positive closing value) while the exponent 1/y is not
an integer, the CAGR power returns NaN, which again lands in the
displayed table.  Only when the ratio is positive and the year span
nonzero do both computations follow the finite formulas. -/
theorem zero_opening_unguarded (pw : ℚ → ℚ → ℚ) (vol : List ℚ → ℚ) (rows : List Row)
    (y : ℚ) (f l : Row) (hf : rows.head? = some f) (hl : rows.getLast? = some l) :
    (f.opn = 0 →
      ("Total Return (%)", (none : Option ℚ)) ∈ sp500_page_stats pw vol rows y ∧
      ("CAGR (%)", (none : Option ℚ)) ∈ sp500_page_stats pw vol rows y) ∧
    (f.opn ≠ 0 →
      total_return f.opn l.close = some ((l.close - f.opn) / f.opn * 100)) ∧
    (f.opn ≠ 0 → y ≠ 0 → l.close / f.opn < 0 → (1 / y).den ≠ 1 →
      cagr pw f.opn l.close y = none ∧
      ("CAGR (%)", (none : Option ℚ)) ∈ sp500_page_stats pw vol rows y) ∧
    (f.opn ≠ 0 → y ≠ 0 → 0 < l.close / f.opn →
      cagr pw f.opn l.close y =
        some ((pw (l.close / f.opn) (1 / y) - 1) * 100)) := by
  refine ⟨?_, ?_, ?_, ?_⟩
  · intro h0
    simp only [sp500_page_stats, hf, hl]
    constructor
    · simp [total_return, h0]
    · simp [cagr, h0]
  · intro hne
    rw [total_return, if_neg hne]
  · intro hne hy hlt hden
    have hc : cagr pw f.opn l.close y = none := by
      rw [cagr, if_neg (by tauto), if_pos ⟨hlt, hden⟩]
    refine ⟨hc, ?_⟩
    simp only [sp500_page_stats, hf, hl]
    simp [hc]
  · intro hne hy hpos
    rw [cagr, if_neg (by tauto),
      if_neg (by rintro ⟨h1, -⟩; exact lt_asymm h1 hpos),
      if_neg (by rintro ⟨h1, -⟩; exact ne_of_gt hpos h1)]

/-- Witness for C4: a zero opening (both rows non-finite in the
table), a negative opening with positive close (finite total return,
NaN CAGR in the table), and a positive ratio (finite CAGR). -/
theorem zero_opening_unguarded_witness :
    (("Total Return (%)", (none : Option ℚ)) ∈
        sp500_page_stats (fun _ b => b) (fun _ => 1) [⟨0, 2, 0, 50⟩] 2 ∧
      ("CAGR (%)", (none : Option ℚ)) ∈
        sp500_page_stats (fun _ b => b) (fun _ => 1) [⟨0, 2, 0, 50⟩] 2) ∧
    total_return (-1) 50 = some ((50 - (-1)) / (-1) * 100) ∧
    (cagr (fun _ b => b) (-1) 50 3 = none ∧
      ("CAGR (%)", (none : Option ℚ)) ∈
        sp500_page_stats (fun _ b => b) (fun _ => 1) [⟨-1, 2, 0, 50⟩] 3) ∧
    cagr (fun _ b => b) 2 50 3 = some (-200 / 3) := by
  refine ⟨(zero_opening_unguarded (fun _ b => b) (fun _ => 1) [⟨0, 2, 0, 50⟩] 2
      ⟨0, 2, 0, 50⟩ ⟨0, 2, 0, 50⟩ rfl (by simp)).1 rfl, ?_, ?_, ?_⟩
  · exact (zero_opening_unguarded (fun _ b => b) (fun _ => 1) [⟨-1, 2, 0, 50⟩] 3
      ⟨-1, 2, 0, 50⟩ ⟨-1, 2, 0, 50⟩ rfl (by simp)).2.1 (by norm_num)
  · exact (zero_opening_unguarded (fun _ b => b) (fun _ => 1) [⟨-1, 2, 0, 50⟩] 3
      ⟨-1, 2, 0, 50⟩ ⟨-1, 2, 0, 50⟩ rfl (by simp)).2.2.1 (by norm_num) (by norm_num)
      (by norm_num) (by norm_num)
  · have h := (zero_opening_unguarded (fun _ b => b) (fun _ => 1) [⟨2, 2, 0, 50⟩] 3
      ⟨2, 2, 0, 50⟩ ⟨2, 2, 0, 50⟩ rfl (by simp)).2.2.2 (by norm_num) (by norm_num)
      (by norm_num)
    rw [h]
    norm_num

/-- C1 counterexample: one sector holding the whole 3-entry ranking
[(0, vol 3), (1, vol 2), (2, vol 1)]: the diversified portfolio is
[0, 1, 1, 2], which contains ticker 1 twice — duplicate symbols are
not collapsed. -/
theorem diversified_portfolio_duplicate_cex :
    ¬ (diversified_portfolio [0] (fun _ => 0) [(0, 3), (1, 2), (2, 1)]).Nodup := by
  decide

/-- C1 amended: the Diversified portfolio concatenates each per-sector
top-2 and bottom-2 sub-ranking slices without collapsing duplicates:
a sector with exactly 3 members [a, b, c] contributes the four
entries [a, b, b, c] (the middle symbol twice), covering at most 3
distinct symbols. -/
theorem diversified_sector_three_members (sectorOf : Ticker → Sector)
    (sv : List (Ticker × ℚ)) (s : Sector)
    (h3 : (sector_stocks sectorOf sv s).length = 3) :
    ∃ a b c, sector_stocks sectorOf sv s = [a, b, c] ∧
      sector_contribution sectorOf sv s = [a.1, b.1, b.1, c.1] ∧
      (sector_contribution sectorOf sv s).toFinset.card ≤ 3 := by
  obtain ⟨a, b, c, habc⟩ := List.length_eq_three.1 h3
  have hc : sector_contribution sectorOf sv s = [a.1, b.1, b.1, c.1] := by
    rw [sector_contribution, habc]
    rfl
  refine ⟨a, b, c, habc, hc, ?_⟩
  rw [hc]
  simp only [List.toFinset_cons, List.toFinset_nil, Finset.insert_idem]
  calc (insert a.1 (insert b.1 (insert c.1 (∅ : Finset Ticker)))).card
      ≤ (insert b.1 (insert c.1 (∅ : Finset Ticker))).card + 1 :=
        Finset.card_insert_le _ _
    _ ≤ ((insert c.1 (∅ : Finset Ticker)).card + 1) + 1 :=
        Nat.add_le_add_right (Finset.card_insert_le _ _) 1
    _ ≤ 3 := by simp

/-- Witness for C1: the 3-member sector of the counterexample ranking
contributes [0, 1, 1, 2] with 3 distinct symbols. -/
theorem diversified_sector_three_members_witness :
    (sector_stocks (fun _ => 0) [(0, 3), (1, 2), (2, 1)] 0).length = 3 ∧
    ∃ a b c, sector_stocks (fun _ => 0) [(0, 3), (1, 2), (2, 1)] 0 = [a, b, c] ∧
      sector_contribution (fun _ => 0) [(0, 3), (1, 2), (2, 1)] 0 = [a.1, b.1, b.1, c.1] ∧
      (sector_contribution (fun _ => 0) [(0, 3), (1, 2), (2, 1)] 0).toFinset.card ≤ 3 :=
  ⟨by decide,
   diversified_sector_three_members (fun _ => 0) [(0, 3), (1, 2), (2, 1)] 0 (by decide)⟩

/-- C6 counterexample: a universe of one ticker whose series has a
single close row (0, 5): the combined historical series of every
portfolio has one point, fewer than 2, yet the 3-Year Prediction page
does not skip the portfolio or report insufficient data: it renders a
projection entry (expected return 0, from the degenerate constant
fit) for all three portfolios. -/
theorem single_point_projection_cex :
    prediction_page [0] (fun _ => 0) (fun _ => 0) (fun _ => some [(0, 5)]) (some [(0, 1)]) =
      PredictionPageResult.page []
        [("Aggressive", some 0), ("Low-Risk", some 0), ("Diversified", some 0)] := by
  have hps : get_portfolios [0] (fun _ => 0) (fun _ => 0) (fun _ => some [(0, 5)]) =
      { aggressive := [0], lowRisk := [0], diversified := [0, 0] } := by
    decide
  have h1 : combined_close_values [[(0, 5)]] = [5] := by
    norm_num [combined_close_values, combined_returns, unionDates, presentAt, meanOpt,
      lookupDate, List.insertionSort, List.orderedInsert, List.dedup, List.filterMap_cons]
  have h2 : combined_close_values [[(0, 5)], [(0, 5)]] = [5] := by
    norm_num [combined_close_values, combined_returns, unionDates, presentAt, meanOpt,
      lookupDate, List.insertionSort, List.orderedInsert, List.dedup, List.filterMap_cons]
  have h3 : expectedReturnOf [5] (3 * 365) = some 0 :=
    expectedReturnOf_single 5 (3 * 365) (by norm_num) (by norm_num)
  simp only [prediction_page, hps]
  norm_num [List.filterMap_cons, h1, h2, h3]

/-- C6 amended: the page only skips a portfolio when no constituent
loaded at all; on exactly one historical point the least squares fit
degenerates to the constant line, so the page reports a projection
whose future values all equal the single value and whose expected
return is 0 (for a nonzero value), not an insufficient-data message. -/
theorem single_point_constant_fit (v : ℚ) (h : ℕ) (hv : v ≠ 0) (hh : 1 ≤ h) :
    predictFuture [v] h = List.replicate h v ∧ expectedReturnOf [v] h = some 0 :=
  ⟨predictFuture_single v h, expectedReturnOf_single v h hv hh⟩

/-- Witness for C6 at value 5 and horizon 3. -/
theorem single_point_constant_fit_witness :
    predictFuture [5] 3 = List.replicate 3 5 ∧ expectedReturnOf [5] 3 = some 0 :=
  single_point_constant_fit 5 3 (by norm_num) (by norm_num)

end Proyecto
